import Mathlib

/-!
Verification of the GreenMorph gamification core against its front-end
source.  Each definition is a shallow embedding of a function from the
repository (file and line references in the doc comments); JavaScript
numbers are modelled as `ℤ` (integer counters/points) and `ℚ` (values on
which fractional arithmetic is performed).
-/

namespace GreenMorph

/-! ### LevelCalculator (src/frontend/src/pages/Profile.tsx) -/

/-- Translation of `calculateRealTimeLevel` (Profile.tsx lines 363–367):
`if (points >= 200) return "advanced"; if (points >= 100) return
"intermediate"; return "beginner";`. -/
def calculateRealTimeLevel (points : ℤ) : String :=
  if 200 ≤ points then "advanced"
  else if 100 ≤ points then "intermediate"
  else "beginner"

/-- Translation of the `levelMap` record used in `getLevelName`
(Profile.tsx lines 370–389), with the `|| '未知等级'` default for a key
that is not in the record. -/
def levelNameMap (level : String) : String :=
  if level = "beginner" then "✨ 新秀"
  else if level = "intermediate" then "🌟 精英"
  else if level = "advanced" then "💎 大师"
  else "未知等级"

/-- Translation of `getLevelName` (Profile.tsx lines 370–389): when a
points value is provided the level is recomputed from it via
`calculateRealTimeLevel`; otherwise the persisted `skill_level` string is
looked up directly. -/
def getLevelName (skillLevel : String) (points : Option ℤ) : String :=
  match points with
  | some p => levelNameMap (calculateRealTimeLevel p)
  | none => levelNameMap skillLevel

/-- Translation of `calculatePointsProgress` (Profile.tsx lines 392–397):
`if (points >= 200) return 100; if (points >= 100) return 50 + ((points -
100) / 100) * 50; return (points / 100) * 50;`. -/
def calculatePointsProgress (points : ℤ) : ℚ :=
  if 200 ≤ points then 100
  else if 100 ≤ points then 50 + (((points : ℚ) - 100) / 100) * 50
  else ((points : ℚ) / 100) * 50

/-- Width (in percent) of the Profile page level progress bar
(Profile.tsx line 898): `width: ${calculatePointsProgress(points)}%`. -/
def profileLevelBarWidth (points : ℤ) : ℚ :=
  calculatePointsProgress points

/-- Width (in percent) of the Home page level progress bar (Home.tsx
around line 630): `width: ${Math.min((userInfo.points || 0) / 2000 * 100,
100)}%`. -/
def homeLevelBarWidth (points : ℤ) : ℚ :=
  min ((points : ℚ) / 2000 * 100) 100

/-- Tier name shown on the Home page level card (Home.tsx lines 612–615):
a conditional chain on the persisted `userInfo.skill_level` string. -/
def homeLevelCardName (skillLevel : String) : String :=
  if skillLevel = "beginner" then "环保新手"
  else if skillLevel = "intermediate" then "改造达人"
  else "创意大师"

/-- Tier name shown on the Profile page level card (Profile.tsx line
866): `getLevelName(userInfo.skill_level, userInfo.points)`. -/
def profileLevelCardName (skillLevel : String) (points : ℤ) : String :=
  getLevelName skillLevel (some points)

/-- Tier name shown for a leaderboard row (Profile.tsx line 978):
`getLevelName(user.skill_level)` — no points argument is passed. -/
def leaderboardRowLevelName (skillLevel : String) : String :=
  getLevelName skillLevel none

/-- Spec-side definition, written from the words of §4.3 of the
specification (`progressFraction(points) -> [0,1]`), kept separate from
the source translation `calculatePointsProgress` so the two can be
compared. -/
def specProgressFraction (points : ℤ) : ℚ :=
  if 200 ≤ points then 1
  else if 100 ≤ points then 1 / 2 + (((points : ℚ) - 100) / 100) * (1 / 2)
  else ((points : ℚ) / 100) * (1 / 2)

/-! ### LeaderboardRanker client (src/frontend/src/pages/Profile.tsx) -/

/-- Shape of one entry of the leaderboard returned by
`GET /gamification/leaderboard` (Profile.tsx `LeaderboardResponse`). -/
structure LeaderboardUser where
  user_id : ℕ
  username : String
  points : ℤ
  skill_level : String
deriving DecidableEq

/-- Shape of the ranking record `setUserRanking` receives in
`fetchUserRanking` (Profile.tsx lines 288–334). -/
structure UserRanking where
  user_id : ℕ
  username : String
  points : ℤ
  skill_level : String
  rank : ℕ
  total_users : ℕ
  percentile : ℤ
deriving DecidableEq

/-- Which path `fetchUserRanking` takes: the ranking computed from the
`topN(100)` snapshot, or the dedicated single-user rank query
`GET /gamification/leaderboard/user/{userId}`. -/
inductive RankingOutcome where
  | fromSnapshot (r : UserRanking)
  | fromUserQuery
deriving DecidableEq

/-- The `limit` query parameter of the snapshot fetch in
`fetchUserRanking` (Profile.tsx line 291: `leaderboard?limit=100`). -/
def leaderboardQueryLimit : ℕ := 100

/-- JavaScript `Math.round` on the (rational-valued) arguments it
receives here: round half up, `⌊q + 1/2⌋`. -/
def jsRound (q : ℚ) : ℤ := ⌊q + 1 / 2⌋

/-- Combined translation of
`leaderboard.findIndex(user => user.user_id === userId)` followed by
`leaderboard[currentUserRank]` (Profile.tsx lines 295–303): scan the
list, returning the 0-based index together with the entry found there. -/
def findUserRank : List LeaderboardUser → ℕ → ℕ → Option (ℕ × LeaderboardUser)
  | [], _, _ => none
  | u :: rest, uid, i => if u.user_id = uid then some (i, u) else findUserRank rest uid (i + 1)

/-- Translation of the body of `fetchUserRanking` (Profile.tsx lines
288–334) after the snapshot response arrived: if the user is at 0-based
index `i` of the snapshot, build the ranking from the snapshot entry with
`rank = i+1` and `percentile = Math.round(((total_users - rank) /
total_users) * 100)` (guarded by `total_users > 0`, else 0); if the user
is absent, fall through to the dedicated single-user rank query. -/
def fetchUserRanking (leaderboard : List LeaderboardUser) (total_users : ℕ) (userId : ℕ) :
    RankingOutcome :=
  match findUserRank leaderboard userId 0 with
  | some (i, u) =>
      RankingOutcome.fromSnapshot
        { user_id := userId
          username := u.username
          points := u.points
          skill_level := u.skill_level
          rank := i + 1
          total_users := total_users
          percentile :=
            if 0 < total_users then
              jsRound ((((total_users : ℚ) - ((i : ℚ) + 1)) / (total_users : ℚ)) * 100)
            else 0 }
  | none => RankingOutcome.fromUserQuery

/-- Concrete 50-user leaderboard (distinct user ids 1..50, strictly
decreasing points), on which user 50 sits at the bottom, rank 50 of 50. -/
def lowestRank50Board : List LeaderboardUser :=
  (List.range 50).map (fun i =>
    { user_id := i + 1, username := "user", points := (100 : ℤ) - i, skill_level := "beginner" })

/-! ### Achievements-for-user display ordering
(src/frontend/src/pages/Profile.tsx lines 234–246 and
src/frontend/src/pages/Home.tsx lines 317–329; the two comparators are
identical). -/

/-- Shape of one achievement entry of the
`GET /gamification/achievements/user/{id}` response, restricted to the
fields the sort comparator reads (`earned_at` is the millisecond
timestamp `new Date(a.earned_at!).getTime()` of the achieved entry; the
source dereferences it with a non-null assertion). -/
structure AchievementView where
  id : ℕ
  name : String
  status : String
  progress_percentage : ℤ
  earned_at : ℤ
deriving DecidableEq

/-- Translation of the sort comparator in `fetchUserAchievements`:
unachieved before achieved (`-1`/`1`), two unachieved entries compared by
`b.progress_percentage - a.progress_percentage`, two achieved entries by
`earned_at(a) - earned_at(b)`. -/
def achievementCompare (a b : AchievementView) : ℤ :=
  if a.status ≠ "achieved" ∧ b.status = "achieved" then -1
  else if a.status = "achieved" ∧ b.status ≠ "achieved" then 1
  else if a.status ≠ "achieved" ∧ b.status ≠ "achieved" then
    b.progress_percentage - a.progress_percentage
  else a.earned_at - b.earned_at

/-- The non-strict order induced by the comparator: `a` may be placed
before `b` exactly when the comparator does not require the opposite
order. -/
def achievementLe (a b : AchievementView) : Prop :=
  achievementCompare a b ≤ 0

instance : DecidableRel achievementLe := fun a b =>
  inferInstanceAs (Decidable (achievementCompare a b ≤ 0))

/-- The displayed list `sortedAchievements`: JavaScript
`[...achievements].sort(comparator)` produces a permutation of the input
that is sorted with respect to the comparator; it is modelled by
insertion sort over `achievementLe`. -/
def sortAchievements (l : List AchievementView) : List AchievementView :=
  l.insertionSort achievementLe

instance : IsTotal AchievementView achievementLe where
  total a b := by
    unfold achievementLe achievementCompare
    by_cases ha : a.status = "achieved" <;> by_cases hb : b.status = "achieved" <;>
      simp [ha, hb] <;> omega

instance : IsTrans AchievementView achievementLe where
  trans a b c := by
    unfold achievementLe achievementCompare
    by_cases ha : a.status = "achieved" <;> by_cases hb : b.status = "achieved" <;>
      by_cases hc : c.status = "achieved" <;> simp [ha, hb, hc] <;> omega

/-! ### Callers of the achievement check
(src/unnamed/part_004 community page, src/unnamed/part_001 AI redesign
page, Profile.tsx and Home.tsx page-load effects). -/

/-- Observable calls a handler makes, in program order; the constructor
`checkAchievements uid` marks an invocation of
`checkAndNotifyAchievements(uid)`. -/
inductive FxCall where
  | fetchData
  | refreshPosts
  | checkAchievements (uid : ℕ)
  | messageSuccess (s : String)
  | messageWarning (s : String)
  | messageError (s : String)
  | consoleError (s : String)
deriving DecidableEq

/-- Translation of the tail of `handleCreatePost` (part_004, around line
215): on success `message.success('发布成功！')`, then
`checkAndNotifyAchievements(user.id)`, then `fetchPosts()`; on failure
log and show an error. -/
def handleCreatePost (userId : ℕ) (postCreated : Bool) : List FxCall :=
  if postCreated then
    [FxCall.messageSuccess "发布成功！", FxCall.checkAchievements userId, FxCall.refreshPosts]
  else
    [FxCall.consoleError "发布失败详情", FxCall.messageError "发布失败"]

/-- Translation of the tail of `handleSubmitComment` (part_004, around
line 667): on success refresh the comment/post lists, invoke
`checkAndNotifyAchievements(user.id)`, then `message.success`; on
failure show an error and log. -/
def handleSubmitComment (userId : ℕ) (commentCreated : Bool) : List FxCall :=
  if commentCreated then
    [FxCall.refreshPosts, FxCall.checkAchievements userId, FxCall.messageSuccess "评论发布成功！"]
  else
    [FxCall.messageError "评论发布失败", FxCall.consoleError "发布评论失败"]

/-- Translation of `handleLike` (part_004, lines 725–775): after the
like/unlike request succeeds, `checkAndNotifyAchievements(currentPost.user_id)`
is invoked only under `currentPost && !isLiked && currentPost.user_id ===
user.id`; `authorId` is the post author, `likerId` the signed-in user,
`isLiked` whether the click is an un-like, `resultMsg` the server
message echoed by `message.success`. -/
def handleLike (authorId likerId : ℕ) (isLiked : Bool) (requestOk : Bool)
    (resultMsg : String) : List FxCall :=
  if requestOk then
    (if ¬isLiked ∧ authorId = likerId then [FxCall.checkAchievements authorId] else []) ++
      [FxCall.messageSuccess resultMsg]
  else
    [FxCall.messageError "操作失败", FxCall.consoleError "点赞操作失败"]

/-- Translation of the tail of `handleGenerateRedesign` (part_001, lines
178–190): on success `message.success('改造方案生成完成！')`, then, when a
signed-in user id is available, `checkAndNotifyAchievements(user.id)`. -/
def handleGenerateRedesign (user : Option ℕ) (generated : Bool) : List FxCall :=
  if generated then
    FxCall.messageSuccess "改造方案生成完成！" ::
      (match user with
       | some uid => [FxCall.checkAchievements uid]
       | none => [])
  else
    [FxCall.consoleError "改造方案生成失败", FxCall.messageError "改造方案生成失败，请重试"]

/-- Translation of the Profile page `loadUserInfo` effect (Profile.tsx
lines 335–360): when authenticated, fetch the profile data and then
invoke `checkAndNotifyAchievements(user.id)`. -/
def profileLoad (userId : ℕ) (authenticated : Bool) : List FxCall :=
  if authenticated then [FxCall.fetchData, FxCall.checkAchievements userId] else []

/-- Translation of the Home page `loadUserInfo` effect (Home.tsx lines
349–360): when authenticated, fetch the achievements and then invoke
`checkAndNotifyAchievements(user.id)`. -/
def homeLoad (userId : ℕ) (authenticated : Bool) : List FxCall :=
  if authenticated then [FxCall.fetchData, FxCall.checkAchievements userId] else []

/-! ### checkAndNotifyAchievements (src/unnamed/part_006, lines 245–269) -/

/-- Achievement record carried in `new_achievements` of the
`POST /gamification/achievements/check/{id}` response. -/
structure Achievement where
  id : ℕ
  name : String
  description : String
deriving DecidableEq

/-- Payload of the check response. -/
structure CheckData where
  new_achievements : List Achievement
  total_earned : ℕ
deriving DecidableEq

/-- The `CheckAchievementsResponse` shape: an application status `code`
together with the payload. -/
structure CheckAchievementsResponse where
  code : ℕ
  data : CheckData
deriving DecidableEq

/-- What one invocation of `checkAndNotifyAchievements` did:
`notified` is the list of achievements for which
`showAchievementNotification` ran (in order), `refreshScheduled` whether
the delayed `onAchievementsUpdated` callback was scheduled, and
`loggedError` whether the catch block ran `console.error`. -/
structure NotifyOutcome where
  notified : List Achievement
  refreshScheduled : Bool
  loggedError : Bool
deriving DecidableEq

/-- The try-block of `checkAndNotifyAchievements`: await the fetch/parse
(`fetchResult`), then, when `result.code === 200 &&
result.data.new_achievements.length > 0`, show a notification for every
entry of `new_achievements` and schedule the refresh callback when one
was supplied; otherwise do nothing.  Failures of the awaited steps
propagate out of the body. -/
def checkNotifyBody (fetchResult : Except String CheckAchievementsResponse)
    (hasCallback : Bool) : Except String NotifyOutcome :=
  match fetchResult with
  | Except.error e => Except.error e
  | Except.ok r =>
      if r.code = 200 ∧ 0 < r.data.new_achievements.length then
        Except.ok { notified := r.data.new_achievements, refreshScheduled := hasCallback,
                    loggedError := false }
      else
        Except.ok { notified := [], refreshScheduled := false, loggedError := false }

/-- Translation of `checkAndNotifyAchievements` (part_006 lines
245–269): the whole body runs inside `try { ... } catch (error) {
console.error('检查成就失败:', error); }`, so every failure is converted
into a normal completion that displayed nothing and only logged. -/
def checkAndNotifyAchievements (fetchResult : Except String CheckAchievementsResponse)
    (hasCallback : Bool) : Except String NotifyOutcome :=
  match checkNotifyBody fetchResult hasCallback with
  | Except.ok o => Except.ok o
  | Except.error _ =>
      Except.ok { notified := [], refreshScheduled := false, loggedError := true }

/-! ### GrantEngine (backend; not under src/) -/

/-- Modelled from the spec: the backend GrantEngine of §4.2/§5 is not
among the repository files under src/ (only its HTTP callers are), so its
grant step is modelled from the specification's words: the UserAchievement
table is a list of `(user_id, achievement_id)` rows, and the grant step is
an atomic insert-if-absent on the unique pair whose success is the sole
arbiter of "newly granted". -/
def grantStep (rows : List (ℕ × ℕ)) (p : ℕ × ℕ) : List (ℕ × ℕ) × Bool :=
  if p ∈ rows then (rows, false) else (p :: rows, true)

/-- Modelled from the spec: an interleaving of concurrent check-and-grant
invocations at the granularity of their atomic grant steps is a sequence
of `grantStep`s; `runGrantSteps` executes the sequence, returning the
final table and, per request, the pair attempted together with whether
this request's insert succeeded (its `new_achievements` verdict for that
pair). -/
def runGrantSteps (rows : List (ℕ × ℕ)) :
    List (ℕ × ℕ) → List (ℕ × ℕ) × List ((ℕ × ℕ) × Bool)
  | [] => (rows, [])
  | p :: ps =>
      let step := grantStep rows p
      let rest := runGrantSteps step.1 ps
      (rest.1, (p, step.2) :: rest.2)

/-! ## Theorems -/

/-- Helper: on every input `calculatePointsProgress` coincides with the
single closed form `if 200 ≤ p then 100 else p / 2`. -/
theorem calculatePointsProgress_closedForm (p : ℤ) :
    calculatePointsProgress p = if 200 ≤ p then 100 else (p : ℚ) / 2 := by
  unfold calculatePointsProgress
  split_ifs with h1 h2
  · rfl
  · ring
  · ring

/-- C1, counterexample: the claim as stated is false — at points 99 the
function returns 49.5, not the spec fraction 0.495, and at points 200 the
Home page level bar renders width 10 while the piecewise mapping renders
100, so not every level-bar rendering uses the piecewise mapping. -/
theorem calculatePointsProgress_not_spec_fraction :
    calculatePointsProgress 99 ≠ (0.495 : ℚ) ∧
    homeLevelBarWidth 200 = 10 ∧
    calculatePointsProgress 200 = 100 := by
  refine ⟨?_, ?_, ?_⟩
  · norm_num [calculatePointsProgress]
  · norm_num [homeLevelBarWidth]
  · norm_num [calculatePointsProgress]

/-- C1, amended: `calculatePointsProgress` returns 100 times the spec's
`progressFraction` (a percentage with the same piecewise shape, so
points 99, 100, 199, 200 give 49.5, 50, 99.5, 100); the Profile page
level bar renders exactly this value as its width, while the Home page
level bar instead uses the global linear scale
`min(points / 2000 * 100, 100)`, which disagrees with the piecewise
mapping. -/
theorem calculatePointsProgress_percent_of_spec :
    (∀ p : ℤ, calculatePointsProgress p = 100 * specProgressFraction p ∧
      profileLevelBarWidth p = calculatePointsProgress p) ∧
    calculatePointsProgress 99 = 99 / 2 ∧
    calculatePointsProgress 100 = 50 ∧
    calculatePointsProgress 199 = 199 / 2 ∧
    calculatePointsProgress 200 = 100 ∧
    homeLevelBarWidth 200 ≠ 100 * specProgressFraction 200 := by
  refine ⟨fun p => ⟨?_, rfl⟩, ?_, ?_, ?_, ?_, ?_⟩
  · unfold calculatePointsProgress specProgressFraction
    split_ifs with h1 h2
    · norm_num
    · ring
    · ring
  · norm_num [calculatePointsProgress]
  · norm_num [calculatePointsProgress]
  · norm_num [calculatePointsProgress]
  · norm_num [calculatePointsProgress]
  · norm_num [homeLevelBarWidth, specProgressFraction]

/-- C1 witness: the amended equations evaluated at points 150. -/
theorem calculatePointsProgress_percent_of_spec_witness :
    calculatePointsProgress 150 = 100 * specProgressFraction 150 ∧
    profileLevelBarWidth 150 = calculatePointsProgress 150 :=
  calculatePointsProgress_percent_of_spec.1 150

/-- C2: `calculateRealTimeLevel` classifies non-negative points as
beginner exactly on 0–99, intermediate exactly on 100–199, and advanced
exactly on 200 and above. -/
theorem calculateRealTimeLevel_spec (p : ℤ) (hp : 0 ≤ p) :
    (calculateRealTimeLevel p = "beginner" ↔ (0 ≤ p ∧ p ≤ 99)) ∧
    (calculateRealTimeLevel p = "intermediate" ↔ (100 ≤ p ∧ p ≤ 199)) ∧
    (calculateRealTimeLevel p = "advanced" ↔ 200 ≤ p) := by
  unfold calculateRealTimeLevel
  split_ifs with h1 h2
  · exact ⟨iff_of_false (by decide) (by omega),
      iff_of_false (by decide) (by omega), iff_of_true rfl h1⟩
  · exact ⟨iff_of_false (by decide) (by omega),
      iff_of_true rfl (by omega), iff_of_false (by decide) h1⟩
  · exact ⟨iff_of_true rfl (by omega),
      iff_of_false (by decide) (by omega), iff_of_false (by decide) h1⟩

/-- C2 witness: the classification evaluated at points 150. -/
theorem calculateRealTimeLevel_spec_witness :
    (calculateRealTimeLevel 150 = "beginner" ↔ ((0 : ℤ) ≤ 150 ∧ (150 : ℤ) ≤ 99)) ∧
    (calculateRealTimeLevel 150 = "intermediate" ↔ ((100 : ℤ) ≤ 150 ∧ (150 : ℤ) ≤ 199)) ∧
    (calculateRealTimeLevel 150 = "advanced" ↔ (200 : ℤ) ≤ 150) :=
  calculateRealTimeLevel_spec 150 (by norm_num)

/-- C10: on non-negative points `calculatePointsProgress` is monotone,
stays within [0, 100], hits 100 exactly on the advanced tier, and is at
least 50 exactly on the intermediate or advanced tiers. -/
theorem calculatePointsProgress_monotone_bounded (p q : ℤ) (hp : 0 ≤ p) (hpq : p ≤ q) :
    calculatePointsProgress p ≤ calculatePointsProgress q ∧
    0 ≤ calculatePointsProgress p ∧ calculatePointsProgress p ≤ 100 ∧
    (calculatePointsProgress p = 100 ↔ calculateRealTimeLevel p = "advanced") ∧
    (50 ≤ calculatePointsProgress p ↔
      (calculateRealTimeLevel p = "intermediate" ∨ calculateRealTimeLevel p = "advanced")) := by
  have hpq' : (p : ℚ) ≤ (q : ℚ) := by exact_mod_cast hpq
  have hp' : (0 : ℚ) ≤ (p : ℚ) := by exact_mod_cast hp
  rw [calculatePointsProgress_closedForm, calculatePointsProgress_closedForm]
  unfold calculateRealTimeLevel
  refine ⟨?_, ?_, ?_, ?_, ?_⟩
  · split_ifs with h1 h2 h3
    · exact le_refl _
    · omega
    · have : (p : ℚ) < 200 := by exact_mod_cast not_le.mp h1
      linarith
    · linarith
  · split_ifs with h1
    · norm_num
    · positivity
  · split_ifs with h1
    · exact le_refl _
    · have : (p : ℚ) < 200 := by exact_mod_cast not_le.mp h1
      linarith
  · split_ifs with h1 h2
    · simp
    · have hlt : (p : ℚ) < 200 := by exact_mod_cast not_le.mp h1
      constructor
      · intro h
        have h200 : (p : ℚ) = 200 := by linarith
        have : p = 200 := by exact_mod_cast h200
        omega
      · intro h
        exact absurd h (by decide)
    · have hlt : (p : ℚ) < 200 := by exact_mod_cast not_le.mp h1
      constructor
      · intro h
        have h200 : (p : ℚ) = 200 := by linarith
        have : p = 200 := by exact_mod_cast h200
        omega
      · intro h
        exact absurd h (by decide)
  · split_ifs with h1 h2
    · constructor
      · intro _
        exact Or.inr rfl
      · intro _
        norm_num
    · have h2' : (100 : ℚ) ≤ (p : ℚ) := by exact_mod_cast h2
      constructor
      · intro _
        exact Or.inl rfl
      · intro _
        linarith
    · have h2' : (p : ℚ) < 100 := by exact_mod_cast not_le.mp h2
      constructor
      · intro h
        linarith
      · intro h
        rcases h with h | h
        · exact absurd h (by decide)
        · exact absurd h (by decide)

/-- C10 witness: the property applied at points 3 ≤ 250. -/
theorem calculatePointsProgress_monotone_bounded_witness :
    calculatePointsProgress 3 ≤ calculatePointsProgress 250 ∧
    0 ≤ calculatePointsProgress 3 ∧ calculatePointsProgress 3 ≤ 100 ∧
    (calculatePointsProgress 3 = 100 ↔ calculateRealTimeLevel 3 = "advanced") ∧
    (50 ≤ calculatePointsProgress 3 ↔
      (calculateRealTimeLevel 3 = "intermediate" ∨ calculateRealTimeLevel 3 = "advanced")) :=
  calculatePointsProgress_monotone_bounded 3 250 (by norm_num) (by norm_num)

/-- Helper: a successful `findUserRank` scan starting at accumulator
`acc` yields an index past `acc`, the element actually stored at that
position of the list, and that element carries the searched user id. -/
theorem findUserRank_some (uid : ℕ) :
    ∀ (l : List LeaderboardUser) (acc i : ℕ) (u : LeaderboardUser),
      findUserRank l uid acc = some (i, u) →
      acc ≤ i ∧ l.get? (i - acc) = some u ∧ u.user_id = uid := by
  intro l
  induction l with
  | nil => intro acc i u h; simp [findUserRank] at h
  | cons v rest ih =>
      intro acc i u h
      rw [findUserRank] at h
      by_cases hv : v.user_id = uid
      · simp [hv] at h
        obtain ⟨hi, hu⟩ := h
        subst hi; subst hu
        simp [hv]
      · simp [hv] at h
        obtain ⟨h1, h2, h3⟩ := ih (acc + 1) i u h
        refine ⟨by omega, ?_, h3⟩
        have hidx : i - acc = (i - (acc + 1)) + 1 := by omega
        rw [hidx]
        simpa using h2

/-- Helper: a failed `findUserRank` scan means no element of the list
carries the searched user id. -/
theorem findUserRank_none (uid : ℕ) :
    ∀ (l : List LeaderboardUser) (acc : ℕ),
      findUserRank l uid acc = none → ∀ u ∈ l, u.user_id ≠ uid := by
  intro l
  induction l with
  | nil => intro acc _ u hu; simp at hu
  | cons v rest ih =>
      intro acc h u hu
      rw [findUserRank] at h
      by_cases hv : v.user_id = uid
      · simp [hv] at h
      · simp [hv] at h
        rcases List.mem_cons.mp hu with he | hm
        · subst he; exact hv
        · exact ih (acc + 1) h u hm

/-- C3: `fetchUserRanking` resolves the user inside the `topN(100)`
snapshot first — when the user sits at 0-based index `i` it returns the
snapshot entry with `rank = i + 1` and `percentile =
round(((total_users - rank) / total_users) * 100)` (0 when the
population count is 0); when the user is absent from the snapshot it
falls through to the dedicated single-user rank query; and on a concrete
50-user board the lowest-ranked user gets rank 50 of 50 with
percentile 0. -/
theorem fetchUserRanking_spec (leaderboard : List LeaderboardUser) (total_users userId : ℕ) :
    (∀ i u, findUserRank leaderboard userId 0 = some (i, u) →
      u.user_id = userId ∧ leaderboard.get? i = some u ∧
      fetchUserRanking leaderboard total_users userId = RankingOutcome.fromSnapshot
        { user_id := userId
          username := u.username
          points := u.points
          skill_level := u.skill_level
          rank := i + 1
          total_users := total_users
          percentile :=
            if 0 < total_users then
              jsRound ((((total_users : ℚ) - ((i : ℚ) + 1)) / (total_users : ℚ)) * 100)
            else 0 }) ∧
    (findUserRank leaderboard userId 0 = none →
      (∀ u ∈ leaderboard, u.user_id ≠ userId) ∧
      fetchUserRanking leaderboard total_users userId = RankingOutcome.fromUserQuery) ∧
    leaderboardQueryLimit = 100 ∧
    (∃ r, fetchUserRanking lowestRank50Board 50 50 = RankingOutcome.fromSnapshot r ∧
      r.rank = 50 ∧ r.percentile = 0) := by
  refine ⟨?_, ?_, rfl, ?_⟩
  · intro i u h
    obtain ⟨-, hget, hid⟩ := findUserRank_some userId leaderboard 0 i u h
    refine ⟨hid, by simpa using hget, ?_⟩
    unfold fetchUserRanking
    rw [h]
  · intro h
    refine ⟨findUserRank_none userId leaderboard 0 h, ?_⟩
    unfold fetchUserRanking
    rw [h]
  · have h : findUserRank lowestRank50Board 50 0 =
        some (49, { user_id := 50, username := "user", points := 51,
                    skill_level := "beginner" }) := by
      decide
    refine ⟨{ user_id := 50, username := "user", points := 51, skill_level := "beginner",
              rank := 50, total_users := 50, percentile := 0 }, ?_, rfl, rfl⟩
    simp only [fetchUserRanking, h]
    norm_num [jsRound]

/-- C3 witness: the snapshot path applied to a one-user leaderboard in
which user 7 is found at index 0. -/
theorem fetchUserRanking_spec_witness :
    ({ user_id := 7, username := "alice", points := 10,
       skill_level := "beginner" } : LeaderboardUser).user_id = 7 ∧
    [({ user_id := 7, username := "alice", points := 10,
        skill_level := "beginner" } : LeaderboardUser)].get? 0 =
      some { user_id := 7, username := "alice", points := 10, skill_level := "beginner" } ∧
    fetchUserRanking
        [{ user_id := 7, username := "alice", points := 10, skill_level := "beginner" }] 1 7 =
      RankingOutcome.fromSnapshot
        { user_id := 7, username := "alice", points := 10, skill_level := "beginner",
          rank := 0 + 1, total_users := 1,
          percentile :=
            if 0 < (1 : ℕ) then
              jsRound (((((1 : ℕ) : ℚ) - (((0 : ℕ) : ℚ) + 1)) / ((1 : ℕ) : ℚ)) * 100)
            else 0 } :=
  (fetchUserRanking_spec
      [{ user_id := 7, username := "alice", points := 10, skill_level := "beginner" }] 1 7).1
    0 { user_id := 7, username := "alice", points := 10, skill_level := "beginner" } rfl

/-- Helper: `achievementLe` spelt out — `a` may precede `b` exactly when
an achieved `a` forces `b` achieved, two unachieved entries are in
descending `progress_percentage` order, and two achieved entries are in
ascending `earned_at` order. -/
theorem achievementLe_iff (a b : AchievementView) :
    achievementLe a b ↔
      ((a.status = "achieved" → b.status = "achieved") ∧
       (a.status ≠ "achieved" → b.status ≠ "achieved" →
         b.progress_percentage ≤ a.progress_percentage) ∧
       (a.status = "achieved" → b.status = "achieved" → a.earned_at ≤ b.earned_at)) := by
  unfold achievementLe achievementCompare
  by_cases ha : a.status = "achieved" <;> by_cases hb : b.status = "achieved" <;>
    simp [ha, hb]

/-- C4: the displayed achievements list is a permutation of the fetched
one in which every unachieved entry precedes every achieved entry,
unachieved entries appear in descending `progress_percentage` order, and
achieved entries appear in ascending `earned_at` order. -/
theorem sortAchievements_sorted (l : List AchievementView) :
    (sortAchievements l).Perm l ∧
    (sortAchievements l).Pairwise (fun a b =>
      (a.status = "achieved" → b.status = "achieved") ∧
      (a.status ≠ "achieved" → b.status ≠ "achieved" →
        b.progress_percentage ≤ a.progress_percentage) ∧
      (a.status = "achieved" → b.status = "achieved" → a.earned_at ≤ b.earned_at)) := by
  constructor
  · exact List.perm_insertionSort achievementLe l
  · have hs := List.sorted_insertionSort achievementLe l
    exact List.Pairwise.imp (fun h => (achievementLe_iff _ _).mp h) hs

/-- C4 witness: the ordering property applied to a concrete two-element
list (one achieved, one unachieved entry). -/
theorem sortAchievements_sorted_witness :
    (sortAchievements
        [{ id := 1, name := "a", status := "achieved", progress_percentage := 100,
           earned_at := 5 },
         { id := 2, name := "b", status := "locked", progress_percentage := 40,
           earned_at := 0 }]).Perm
      [{ id := 1, name := "a", status := "achieved", progress_percentage := 100,
         earned_at := 5 },
       { id := 2, name := "b", status := "locked", progress_percentage := 40,
         earned_at := 0 }] ∧
    (sortAchievements
        [{ id := 1, name := "a", status := "achieved", progress_percentage := 100,
           earned_at := 5 },
         { id := 2, name := "b", status := "locked", progress_percentage := 40,
           earned_at := 0 }]).Pairwise (fun a b =>
      (a.status = "achieved" → b.status = "achieved") ∧
      (a.status ≠ "achieved" → b.status ≠ "achieved" →
        b.progress_percentage ≤ a.progress_percentage) ∧
      (a.status = "achieved" → b.status = "achieved" → a.earned_at ≤ b.earned_at)) :=
  sortAchievements_sorted
    [{ id := 1, name := "a", status := "achieved", progress_percentage := 100, earned_at := 5 },
     { id := 2, name := "b", status := "locked", progress_percentage := 40, earned_at := 0 }]

/-- C5, counterexample: the claim as stated is false — for a user whose
persisted `skill_level` is "beginner" but whose live points are 250, the
leaderboard row shows the beginner tier name and the Home level card
shows the beginner card name, both differing from what the real-time
computation on 250 points would display. -/
theorem persisted_level_display_counterexample :
    leaderboardRowLevelName "beginner" = "✨ 新秀" ∧
    levelNameMap (calculateRealTimeLevel 250) = "💎 大师" ∧
    leaderboardRowLevelName "beginner" ≠ levelNameMap (calculateRealTimeLevel 250) ∧
    homeLevelCardName "beginner" ≠ homeLevelCardName (calculateRealTimeLevel 250) := by
  refine ⟨rfl, ?_, ?_, ?_⟩ <;> decide

/-- C5, amended: only the Profile level card computes the displayed tier
in real time from the live points value; the leaderboard rows and the
Home page level card render the persisted `skill_level` field, which can
disagree with the real-time tier (witnessed at persisted "beginner" with
250 points). -/
theorem level_display_sources :
    (∀ (skillLevel : String) (p : ℤ),
      profileLevelCardName skillLevel p = levelNameMap (calculateRealTimeLevel p)) ∧
    (∀ skillLevel : String, leaderboardRowLevelName skillLevel = levelNameMap skillLevel) ∧
    leaderboardRowLevelName "beginner" ≠ levelNameMap (calculateRealTimeLevel 250) ∧
    homeLevelCardName "beginner" ≠ homeLevelCardName (calculateRealTimeLevel 250) := by
  refine ⟨fun skillLevel p => rfl, fun skillLevel => rfl, ?_, ?_⟩ <;> decide

/-- C5 witness: the Profile level card display evaluated at persisted
"beginner" with 250 points. -/
theorem level_display_sources_witness :
    profileLevelCardName "beginner" 250 = levelNameMap (calculateRealTimeLevel 250) :=
  level_display_sources.1 "beginner" 250

/-- C6, counterexample: the claim as stated is false — when user 1 likes
a post authored by user 2 (a successfully committed like that moves
user 2's likes-received counter), the like handler does not invoke
`checkAndNotifyAchievements` for user 2. -/
theorem like_no_check_for_author_counterexample :
    FxCall.checkAchievements 2 ∉ handleLike 2 1 false true "点赞成功" := by
  decide

/-- C6, amended: after a successfully committed publish-post, post-comment
or complete-redesign action the caller invokes the achievement check for
the acting user, and it is also invoked opportunistically on Profile and
Home page load; after a like, however, the check is invoked for the post
author exactly when the like request succeeded, the click was a like (not
an un-like), and the author is the liking user themself. -/
theorem achievement_check_callers :
    (∀ userId, FxCall.checkAchievements userId ∈ handleCreatePost userId true) ∧
    (∀ userId, FxCall.checkAchievements userId ∈ handleSubmitComment userId true) ∧
    (∀ userId, FxCall.checkAchievements userId ∈ handleGenerateRedesign (some userId) true) ∧
    (∀ userId, FxCall.checkAchievements userId ∈ profileLoad userId true) ∧
    (∀ userId, FxCall.checkAchievements userId ∈ homeLoad userId true) ∧
    (∀ (authorId likerId : ℕ) (isLiked requestOk : Bool) (resultMsg : String),
      FxCall.checkAchievements authorId ∈ handleLike authorId likerId isLiked requestOk resultMsg ↔
        (requestOk = true ∧ isLiked = false ∧ authorId = likerId)) := by
  refine ⟨fun userId => ?_, fun userId => ?_, fun userId => ?_, fun userId => ?_,
    fun userId => ?_, fun authorId likerId isLiked requestOk resultMsg => ?_⟩
  · simp [handleCreatePost]
  · simp [handleSubmitComment]
  · simp [handleGenerateRedesign]
  · simp [profileLoad]
  · simp [homeLoad]
  · cases requestOk <;> cases isLiked <;> by_cases h : authorId = likerId <;>
      simp [handleLike, h]

/-- C6 witness: the publish-post caller evaluated for user 5. -/
theorem achievement_check_callers_witness :
    FxCall.checkAchievements 5 ∈ handleCreatePost 5 true :=
  achievement_check_callers.1 5

/-- C7: for one invocation of `checkAndNotifyAchievements`, a celebration
notification is shown for an achievement exactly when it appears in the
`new_achievements` field of that invocation's (successful) response, and
an empty `new_achievements` displays nothing; the outcome is a function
of that single response alone, so no diffing of separately fetched
achievement lists is involved. -/
theorem checkAndNotifyAchievements_notified_iff (r : CheckAchievementsResponse)
    (hasCallback : Bool) (a : Achievement) (o : NotifyOutcome)
    (h : checkAndNotifyAchievements (Except.ok r) hasCallback = Except.ok o) :
    (a ∈ o.notified ↔ r.code = 200 ∧ a ∈ r.data.new_achievements) ∧
    (r.data.new_achievements = [] → o.notified = []) := by
  rw [checkAndNotifyAchievements] at h
  by_cases hc : r.code = 200 ∧ 0 < r.data.new_achievements.length
  · have hb : checkNotifyBody (Except.ok r) hasCallback =
        Except.ok { notified := r.data.new_achievements, refreshScheduled := hasCallback,
                    loggedError := false } := by
      simp [checkNotifyBody, hc]
    rw [hb] at h
    cases h
    constructor
    · simp [hc.1]
    · intro hna
      simp [hna]
  · have hb : checkNotifyBody (Except.ok r) hasCallback =
        Except.ok { notified := [], refreshScheduled := false, loggedError := false } := by
      rw [checkNotifyBody]
      rw [if_neg hc]
    rw [hb] at h
    cases h
    refine ⟨?_, fun _ => rfl⟩
    constructor
    · intro hmem
      simp at hmem
    · rintro ⟨h200, hmem⟩
      exact absurd ⟨h200, List.length_pos_of_mem hmem⟩ hc

/-- C7 witness: a successful response granting one achievement notifies
exactly that achievement. -/
theorem checkAndNotifyAchievements_notified_iff_witness :
    (Achievement.mk 1 "新手改造师" "发布第一篇帖子" ∈
        (NotifyOutcome.mk [Achievement.mk 1 "新手改造师" "发布第一篇帖子"] true false).notified ↔
      ((CheckAchievementsResponse.mk 200
          (CheckData.mk [Achievement.mk 1 "新手改造师" "发布第一篇帖子"] 1)).code = 200 ∧
        Achievement.mk 1 "新手改造师" "发布第一篇帖子" ∈
          (CheckAchievementsResponse.mk 200
            (CheckData.mk [Achievement.mk 1 "新手改造师" "发布第一篇帖子"] 1)).data.new_achievements)) ∧
    ((CheckAchievementsResponse.mk 200
        (CheckData.mk [Achievement.mk 1 "新手改造师" "发布第一篇帖子"] 1)).data.new_achievements = [] →
      (NotifyOutcome.mk [Achievement.mk 1 "新手改造师" "发布第一篇帖子"] true false).notified = []) :=
  checkAndNotifyAchievements_notified_iff
    (CheckAchievementsResponse.mk 200 (CheckData.mk [Achievement.mk 1 "新手改造师" "发布第一篇帖子"] 1))
    true (Achievement.mk 1 "新手改造师" "发布第一篇帖子")
    (NotifyOutcome.mk [Achievement.mk 1 "新手改造师" "发布第一篇帖子"] true false) rfl

/-- C8: `checkAndNotifyAchievements` always resolves — every invocation
yields a normal completion, and on any failure of the grant-check request
it completes having displayed nothing and only logged the error, so the
triggering business action is never blocked. -/
theorem checkAndNotifyAchievements_never_rejects
    (fetchResult : Except String CheckAchievementsResponse) (hasCallback : Bool) :
    (∃ o, checkAndNotifyAchievements fetchResult hasCallback = Except.ok o) ∧
    (∀ e, fetchResult = Except.error e →
      checkAndNotifyAchievements fetchResult hasCallback =
        Except.ok { notified := [], refreshScheduled := false, loggedError := true }) := by
  constructor
  · cases hb : checkNotifyBody fetchResult hasCallback with
    | ok o => exact ⟨o, by simp [checkAndNotifyAchievements, hb]⟩
    | error e =>
        exact ⟨{ notified := [], refreshScheduled := false, loggedError := true },
          by simp [checkAndNotifyAchievements, hb]⟩
  · intro e he
    subst he
    rfl

/-- C8 witness: a failed fetch is caught, logged, and displays nothing. -/
theorem checkAndNotifyAchievements_never_rejects_witness :
    checkAndNotifyAchievements (Except.error "network failure") false =
      Except.ok { notified := [], refreshScheduled := false, loggedError := true } :=
  (checkAndNotifyAchievements_never_rejects (Except.error "network failure") false).2
    "network failure" rfl

/-- Helper: once a `(user, achievement)` row is present, any further
grant steps leave its multiplicity unchanged and never report it as
newly granted. -/
theorem runGrantSteps_already_present (p : ℕ × ℕ) :
    ∀ (reqs : List (ℕ × ℕ)) (rows : List (ℕ × ℕ)), p ∈ rows →
      (runGrantSteps rows reqs).1.count p = rows.count p ∧
      (runGrantSteps rows reqs).2.count (p, true) = 0 := by
  intro reqs
  induction reqs with
  | nil => intro rows h; simp [runGrantSteps]
  | cons q ps ih =>
      intro rows h
      by_cases hq : q ∈ rows
      · have hs : grantStep rows q = (rows, false) := by simp [grantStep, hq]
        have hrec := ih rows h
        rw [runGrantSteps]
        simp only [hs]
        refine ⟨hrec.1, ?_⟩
        simp [List.count_cons, hrec.2]
      · have hs : grantStep rows q = (q :: rows, true) := by simp [grantStep, hq]
        have hqp : ¬(q = p) := fun he => hq (he ▸ h)
        have hrec := ih (q :: rows) (List.mem_cons_of_mem _ h)
        rw [runGrantSteps]
        simp only [hs]
        constructor
        · rw [hrec.1]
          simp [List.count_cons, hqp]
        · simp [List.count_cons, hrec.2, hqp]

/-- C9: over every interleaving of grant steps (any request sequence in
which the newly crossed `(user, achievement)` pair is attempted at least
once, starting from a table without that row), exactly one request
reports the pair as newly granted and exactly one matching
UserAchievement row exists afterward. -/
theorem checkAndGrant_exactly_once (p : ℕ × ℕ) :
    ∀ (reqs : List (ℕ × ℕ)) (rows : List (ℕ × ℕ)), p ∉ rows → 0 < reqs.count p →
      (runGrantSteps rows reqs).2.count (p, true) = 1 ∧
      (runGrantSteps rows reqs).1.count p = 1 := by
  intro reqs
  induction reqs with
  | nil => intro rows _ hcount; simp at hcount
  | cons q ps ih =>
      intro rows hnot hcount
      by_cases hqp : q = p
      · subst hqp
        have hs : grantStep rows q = (q :: rows, true) := by
          simp [grantStep, hnot]
        have hpresent := runGrantSteps_already_present q ps (q :: rows) (List.mem_cons_self q rows)
        rw [runGrantSteps]
        simp only [hs]
        constructor
        · simp [List.count_cons, hpresent.2]
        · rw [hpresent.1]
          simp [List.count_cons, List.count_eq_zero_of_not_mem hnot]
      · have hcount' : 0 < ps.count p := by
          rw [List.count_cons] at hcount
          simpa [hqp] using hcount
        by_cases hq : q ∈ rows
        · have hs : grantStep rows q = (rows, false) := by simp [grantStep, hq]
          have hrec := ih rows hnot hcount'
          rw [runGrantSteps]
          simp only [hs]
          refine ⟨?_, hrec.2⟩
          simp [List.count_cons, hrec.1, hqp]
        · have hs : grantStep rows q = (q :: rows, true) := by simp [grantStep, hq]
          have hnot' : p ∉ q :: rows := by
            intro hmem
            rcases List.mem_cons.mp hmem with he | hm
            · exact hqp he.symm
            · exact hnot hm
          have hrec := ih (q :: rows) hnot' hcount'
          rw [runGrantSteps]
          simp only [hs]
          refine ⟨?_, hrec.2⟩
          simp [List.count_cons, hrec.1, hqp]

/-- C9 witness: three concurrent grant attempts of achievement 2 for
user 1 on an empty table — exactly one attempt wins and one row exists. -/
theorem checkAndGrant_exactly_once_witness :
    (runGrantSteps [] [(1, 2), (1, 2), (1, 2)]).2.count ((1, 2), true) = 1 ∧
    (runGrantSteps [] [(1, 2), (1, 2), (1, 2)]).1.count (1, 2) = 1 :=
  checkAndGrant_exactly_once (1, 2) [(1, 2), (1, 2), (1, 2)] []
    (by simp) (by simp)

end GreenMorph
